import Mathlib

/-!
Verification development for the corruptOS UEFI bootloader
(src/bootloader/main.c), as a shallow embedding in Lean 4.

Modelling conventions:
* machine integers are `Nat`, with explicit `% 2 ^ 64` (resp. `% 256`)
  where the C performs 64-bit unsigned arithmetic (resp. reads
  `unsigned char` bytes);
* firmware services (file open, pool address, page allocation success,
  GOP presence) are an explicit environment record `BootEnv`;
* file contents are byte functions `Nat → Nat` (offset to byte);
* the observable firmware calls made by the font loader and the segment
  mapper are recorded as explicit action traces.
-/

/-! ## Constants from elf.h, efi.h and the source -/

def EI_CLASS : Nat := 4
def EI_DATA : Nat := 5
def ELFCLASS64 : Nat := 2
def ELFDATA2LSB : Nat := 1
def ET_EXEC : Nat := 2
def EM_X86_64 : Nat := 62
def EV_CURRENT : Nat := 1
def PT_LOAD : Nat := 1

/-- The four ELF magic bytes 0x7f, 'E', 'L', 'F' (ELFMAG, SELFMAG = 4). -/
def elfmag : Nat → Nat
  | 0 => 0x7f
  | 1 => 0x45
  | 2 => 0x4c
  | 3 => 0x46
  | _ => 0

def EFI_SUCCESS : Nat := 0

/-- EFI_LOAD_ERROR = EFIERR(1): error bit 2^63 set, code 1. -/
def EFI_LOAD_ERROR : Nat := 2 ^ 63 + 1

def EFI_FILE_MODE_READ : Nat := 1
def EFI_FILE_READ_ONLY : Nat := 1

def sizeof_Elf64_Phdr : Nat := 56
def sizeof_PSF1_HEADER : Nat := 4
def sizeof_PSF1_FONT : Nat := 16

def PSF1_MAGIC0 : Nat := 0x36
def PSF1_MAGIC1 : Nat := 0x04

/-! ## memcmp (src/bootloader/main.c lines 149-156)

The C loop runs `i = 0 .. n-1`; we recurse on the remaining count,
keeping the running index `i` explicit. -/

def memcmpAux (a b : Nat → Nat) (i : Nat) : Nat → Int
  | 0 => 0
  | n + 1 =>
    if a i < b i then -1
    else if b i < a i then 1
    else memcmpAux a b (i + 1) n

/-- memcmp from the source: first differing byte decides the sign. -/
def memcmp (a b : Nat → Nat) (n : Nat) : Int := memcmpAux a b 0 n

/-! ## ELF header (Elf64_Ehdr) -/

/-- Little-endian read of `n` bytes at offset `off`; each byte of the
file is an `unsigned char`, hence the `% 256`. -/
def readLE (f : Nat → Nat) (off : Nat) : Nat → Nat
  | 0 => 0
  | n + 1 => f off % 256 + 256 * readLE f (off + 1) n

/-- The fields of Elf64_Ehdr that the bootloader consumes. -/
structure Elf64_Ehdr where
  ident : Nat → Nat
  e_type : Nat
  e_machine : Nat
  e_version : Nat
  e_entry : Nat
  e_phoff : Nat
  e_phentsize : Nat
  e_phnum : Nat

/-- Reading `sizeof(Elf64_Ehdr)` bytes from the start of the file into
the header struct (standard Elf64 layout: e_ident at 0, e_type at 16,
e_machine at 18, e_version at 20, e_entry at 24, e_phoff at 32,
e_phentsize at 54, e_phnum at 56). -/
def readEhdr (f : Nat → Nat) : Elf64_Ehdr where
  ident := fun i => f i % 256
  e_type := readLE f 16 2
  e_machine := readLE f 18 2
  e_version := readLE f 20 4
  e_entry := readLE f 24 8
  e_phoff := readLE f 32 8
  e_phentsize := readLE f 54 2
  e_phnum := readLE f 56 2

/-- Header verification (main.c lines 207-217): the bootloader rejects
(returns EFI_LOAD_ERROR) iff the short-circuit disjunction of the six
mismatch tests holds; `verifyHeader` is true iff the header is accepted.
The tests appear in the source order. -/
def verifyHeader (h : Elf64_Ehdr) : Bool :=
  !(decide (memcmp h.ident elfmag 4 ≠ 0) ||
    decide (h.ident EI_CLASS ≠ ELFCLASS64) ||
    decide (h.ident EI_DATA ≠ ELFDATA2LSB) ||
    decide (h.e_type ≠ ET_EXEC) ||
    decide (h.e_machine ≠ EM_X86_64) ||
    decide (h.e_version ≠ EV_CURRENT))

/-! ## Claim C2: header validation -/

lemma memcmp_magic_eq_zero_iff (a : Nat → Nat) :
    memcmp a elfmag 4 = 0 ↔
      (a 0 = 0x7f ∧ a 1 = 0x45 ∧ a 2 = 0x4c ∧ a 3 = 0x46) := by
  simp only [memcmp, memcmpAux, elfmag, Nat.add_zero, Nat.zero_add,
    Nat.reduceAdd]
  split_ifs <;> simp <;> omega

/-- C2. Header validation: `verifyHeader` accepts exactly the headers
whose 4 magic bytes, class, data encoding, type, machine and version all
match the expected constants; consequently a header with exactly one
invalid field among these is rejected, and corrupting any one of the 4
magic bytes forces rejection. -/
theorem c2_header_validation :
    (∀ h : Elf64_Ehdr,
      verifyHeader h = true ↔
        (h.ident 0 = 0x7f ∧ h.ident 1 = 0x45 ∧ h.ident 2 = 0x4c ∧
         h.ident 3 = 0x46 ∧ h.ident EI_CLASS = ELFCLASS64 ∧
         h.ident EI_DATA = ELFDATA2LSB ∧ h.e_type = ET_EXEC ∧
         h.e_machine = EM_X86_64 ∧ h.e_version = EV_CURRENT))
    ∧ (∀ h : Elf64_Ehdr, ∀ i, i < 4 → h.ident i ≠ elfmag i →
        verifyHeader h = false) := by
  have hiff : ∀ h : Elf64_Ehdr,
      verifyHeader h = true ↔
        (h.ident 0 = 0x7f ∧ h.ident 1 = 0x45 ∧ h.ident 2 = 0x4c ∧
         h.ident 3 = 0x46 ∧ h.ident EI_CLASS = ELFCLASS64 ∧
         h.ident EI_DATA = ELFDATA2LSB ∧ h.e_type = ET_EXEC ∧
         h.e_machine = EM_X86_64 ∧ h.e_version = EV_CURRENT) := by
    intro h
    simp only [verifyHeader, Bool.not_eq_true', Bool.or_eq_false_iff,
      decide_eq_false_iff_not, not_not]
    rw [memcmp_magic_eq_zero_iff]
    tauto
  refine ⟨hiff, ?_⟩
  intro h i hi hbad
  rcases Bool.eq_false_or_eq_true (verifyHeader h) with ht | hf
  · exfalso
    have hd := (hiff h).mp ht
    interval_cases i <;> simp only [elfmag] at hbad <;> tauto
  · exact hf

/-- A fully valid ELF header for the x86-64 bootloader. -/
def hdrGood : Elf64_Ehdr where
  ident := fun i => [0x7f, 0x45, 0x4c, 0x46, 2, 1].getD i 0
  e_type := 2
  e_machine := 62
  e_version := 1
  e_entry := 0
  e_phoff := 64
  e_phentsize := 56
  e_phnum := 1

/-- hdrGood with only the machine field changed (40 = AArch64). -/
def hdrBadMachine : Elf64_Ehdr := { hdrGood with e_machine := 40 }

/-- hdrGood with only magic byte 0 corrupted. -/
def hdrBadMagic : Elf64_Ehdr :=
  { hdrGood with ident := fun i => [0x00, 0x45, 0x4c, 0x46, 2, 1].getD i 0 }

/-- C2 witness: a fully valid header is accepted; flipping only the
machine field (to 40, AArch64) is rejected; corrupting magic byte 0 is
rejected. -/
theorem c2_witness :
    verifyHeader hdrGood = true ∧ verifyHeader hdrBadMachine = false ∧
      verifyHeader hdrBadMagic = false := by
  refine ⟨(c2_header_validation.1 hdrGood).mpr (by decide), ?_, ?_⟩
  · rcases Bool.eq_false_or_eq_true (verifyHeader hdrBadMachine) with ht | hf
    · exact absurd ((c2_header_validation.1 hdrBadMachine).mp ht) (by decide)
    · exact hf
  · exact c2_header_validation.2 hdrBadMagic 0 (by decide) (by decide)

/-! ## Firmware environment and the file resolver (LoadFile) -/

/-- Framebuffer structure (main.c lines 10-16); `base` is the
framebuffer base address. -/
structure Framebuffer where
  base : Nat
  size : Nat
  width : Nat
  height : Nat
  pps : Nat
deriving DecidableEq

/-- The firmware collaborators the bootloader consumes, as an explicit
environment: `openf dir path mode attrs` models EFI_FILE.Open (returns
`none` on a non-success status), `fileBytes handle offset` the contents
of an opened file, `phdrsAddr` the pool address AllocatePool returns
for the program-header table, `allocOk paddr pages` whether the
fixed-address AllocatePages call succeeds, `gop` the located graphics
output protocol (already captured as a Framebuffer), and `mem0` the
prior contents of physical memory, byte by byte. -/
structure BootEnv where
  volumeRoot : Nat
  openf : Nat → String → Nat → Nat → Option Nat
  fileBytes : Nat → Nat → Nat
  phdrsAddr : Nat
  allocOk : Nat → Nat → Bool
  gop : Option Framebuffer
  mem0 : Nat → Nat

/-- LoadFile (main.c lines 58-77): a null directory is replaced by the
volume root (OpenVolume); the path is then opened with mode
EFI_FILE_MODE_READ and attribute EFI_FILE_READ_ONLY, and a non-success
status is returned to the caller as the null marker `none`. -/
def LoadFile (env : BootEnv) (Directory : Option Nat) (Path : String) :
    Option Nat :=
  let dir := match Directory with
    | none => env.volumeRoot
    | some d => d
  env.openf dir Path EFI_FILE_MODE_READ EFI_FILE_READ_ONLY

/-! ## Claim C8: the file resolver contract -/

/-- C8. LoadFile with a null directory opens the path relative to the
volume root, otherwise relative to the given directory, always
read-only; an open failure comes back as the null marker `none`, and a
success returns the opened handle unchanged. -/
theorem c8_file_resolver (env : BootEnv) (Directory : Option Nat)
    (Path : String) :
    (Directory = none →
      LoadFile env Directory Path =
        env.openf env.volumeRoot Path EFI_FILE_MODE_READ EFI_FILE_READ_ONLY)
    ∧ (∀ d, Directory = some d →
      LoadFile env Directory Path =
        env.openf d Path EFI_FILE_MODE_READ EFI_FILE_READ_ONLY)
    ∧ (env.openf (Directory.getD env.volumeRoot) Path EFI_FILE_MODE_READ
          EFI_FILE_READ_ONLY = none → LoadFile env Directory Path = none)
    ∧ (∀ h, env.openf (Directory.getD env.volumeRoot) Path
          EFI_FILE_MODE_READ EFI_FILE_READ_ONLY = some h →
        LoadFile env Directory Path = some h) := by
  cases Directory <;> simp [LoadFile, Option.getD]

/-- Environment for the C8 witness: only ("kernel" under the root) and
("main.elf" under handle 10) exist. -/
def env8 : BootEnv where
  volumeRoot := 1
  openf := fun d p _ _ =>
    if d = 1 ∧ p = "kernel" then some 10
    else if d = 10 ∧ p = "main.elf" then some 11
    else none
  fileBytes := fun _ _ => 0
  phdrsAddr := 0
  allocOk := fun _ _ => true
  gop := none
  mem0 := fun _ => 0

/-- C8 witness: with a null directory the root is used and "kernel"
resolves to handle 10; with directory 10, "main.elf" resolves to 11;
opening a missing path yields the null marker. -/
theorem c8_witness :
    LoadFile env8 none "kernel" = some 10
    ∧ LoadFile env8 (some 10) "main.elf" = some 11
    ∧ LoadFile env8 (some 10) "missing.bin" = none := by
  refine ⟨?_, ?_, ?_⟩
  · exact ((c8_file_resolver env8 none "kernel").1 rfl).trans (by decide)
  · exact ((c8_file_resolver env8 (some 10) "main.elf").2.1 10 rfl).trans
      (by decide)
  · exact (c8_file_resolver env8 (some 10) "missing.bin").2.2.1 (by decide)

/-! ## PSF1 font loader (main.c lines 108-139) -/

/-- Observable firmware calls the font loader makes after the file is
open: pool allocations, reads of the open font file, and SetPosition. -/
inductive FontOp where
  | allocPool (size : Nat)
  | readFile (size : Nat)
  | setPos (pos : Nat)
deriving DecidableEq

/-- PSF1 header fields; each is an `unsigned char` read from the file. -/
structure PSF1_HEADER where
  magic0 : Nat
  magic1 : Nat
  mode : Nat
  charsize : Nat
deriving DecidableEq

/-- PSF1_FONT: in C a pair of pointers to the header and the glyph
buffer; modelled by the header contents and the glyph bytes those
pointers reach. -/
structure PSF1_FONT where
  psf1_Header : PSF1_HEADER
  glyphBuffer : Nat → Nat

/-- LoadPSF1Font: resolve the file, read the 4-byte header, reject a
magic mismatch with the null marker before any glyph work, otherwise
compute the glyph-buffer size (charsize*256, overridden to charsize*512
when the mode byte equals 1), seek to the end of the header, allocate
and read the glyph buffer, and bundle the result. The second component
records the firmware calls in order. -/
def LoadPSF1Font (env : BootEnv) (Directory : Option Nat) (Path : String) :
    Option PSF1_FONT × List FontOp :=
  match LoadFile env Directory Path with
  | none => (none, [])
  | some font =>
    let fontHeader : PSF1_HEADER :=
      { magic0 := env.fileBytes font 0 % 256
        magic1 := env.fileBytes font 1 % 256
        mode := env.fileBytes font 2 % 256
        charsize := env.fileBytes font 3 % 256 }
    if fontHeader.magic0 ≠ PSF1_MAGIC0 ∨ fontHeader.magic1 ≠ PSF1_MAGIC1 then
      (none, [FontOp.allocPool sizeof_PSF1_HEADER,
              FontOp.readFile sizeof_PSF1_HEADER])
    else
      let glyphBufferSize :=
        if fontHeader.mode = 1 then fontHeader.charsize * 512
        else fontHeader.charsize * 256
      (some { psf1_Header := fontHeader
              glyphBuffer := fun i => env.fileBytes font (4 + i) },
       [FontOp.allocPool sizeof_PSF1_HEADER,
        FontOp.readFile sizeof_PSF1_HEADER,
        FontOp.setPos sizeof_PSF1_HEADER,
        FontOp.allocPool glyphBufferSize,
        FontOp.readFile glyphBufferSize,
        FontOp.allocPool sizeof_PSF1_FONT])

/-! ## Claims C3, C6, C10: font loader -/

/-- C3 (amended). For any font file that opens and passes the magic
check, the loader's firmware trace is exactly: header pool allocation
and read (4 bytes), seek to offset 4, then allocation and read of the
glyph buffer whose size is charsize*512 when the mode byte equals
exactly 1 and charsize*256 for every other mode value, then the
PSF1_FONT pool allocation (16 bytes). This holds for every charsize
byte value 0..255. -/
theorem c3_glyph_size (env : BootEnv) (Directory : Option Nat)
    (Path : String) (fh : Nat)
    (hopen : LoadFile env Directory Path = some fh)
    (hm0 : env.fileBytes fh 0 % 256 = PSF1_MAGIC0)
    (hm1 : env.fileBytes fh 1 % 256 = PSF1_MAGIC1) :
    (LoadPSF1Font env Directory Path).2 =
      [FontOp.allocPool 4, FontOp.readFile 4, FontOp.setPos 4,
       FontOp.allocPool (if env.fileBytes fh 2 % 256 = 1
         then env.fileBytes fh 3 % 256 * 512
         else env.fileBytes fh 3 % 256 * 256),
       FontOp.readFile (if env.fileBytes fh 2 % 256 = 1
         then env.fileBytes fh 3 % 256 * 512
         else env.fileBytes fh 3 % 256 * 256),
       FontOp.allocPool 16] := by
  simp only [LoadPSF1Font, hopen, hm0, hm1, sizeof_PSF1_HEADER,
    sizeof_PSF1_FONT]
  split_ifs with hbad h1 h1 <;> simp_all

/-- Environment whose font file has mode byte 1 and charsize 2. -/
def envMode1 : BootEnv where
  volumeRoot := 1
  openf := fun _ p _ _ => if p = "main.psf" then some 5 else none
  fileBytes := fun _ o => [0x36, 0x04, 1, 2].getD o 0
  phdrsAddr := 0
  allocOk := fun _ _ => true
  gop := none
  mem0 := fun _ => 0

/-- C3 witness: mode byte 1, charsize 2: the glyph buffer allocated and
read is 2*512 = 1024 bytes. -/
theorem c3_witness :
    (LoadPSF1Font envMode1 none "main.psf").2 =
      [FontOp.allocPool 4, FontOp.readFile 4, FontOp.setPos 4,
       FontOp.allocPool 1024, FontOp.readFile 1024, FontOp.allocPool 16] :=
  (c3_glyph_size envMode1 none "main.psf" 5 (by decide) (by decide)
    (by decide)).trans (by decide)

/-- Environment whose font file has mode byte 3 (bit 0 set) and
charsize 1. -/
def envMode3 : BootEnv where
  volumeRoot := 1
  openf := fun _ p _ _ => if p = "main.psf" then some 5 else none
  fileBytes := fun _ o => [0x36, 0x04, 3, 1].getD o 0
  phdrsAddr := 0
  allocOk := fun _ _ => true
  gop := none
  mem0 := fun _ => 0

/-- C3 counterexample: a font header passing the magic check with mode
byte 3 — bit 0 set — and charsize 1. The claim requires a glyph-buffer
size of 1*512 = 512, but the loader (which tests mode == 1, not bit 0)
allocates and reads 1*256 = 256 bytes. -/
theorem c3_counterexample :
    Nat.testBit 3 0 = true
    ∧ envMode3.fileBytes 5 0 % 256 = PSF1_MAGIC0
    ∧ envMode3.fileBytes 5 1 % 256 = PSF1_MAGIC1
    ∧ envMode3.fileBytes 5 2 % 256 = 3
    ∧ envMode3.fileBytes 5 3 % 256 = 1
    ∧ (LoadPSF1Font envMode3 none "main.psf").2 =
        [FontOp.allocPool 4, FontOp.readFile 4, FontOp.setPos 4,
         FontOp.allocPool 256, FontOp.readFile 256, FontOp.allocPool 16]
    ∧ (256 : Nat) ≠ 1 * 512 := by decide

/-- C6. If the opened font file fails the two-byte magic check in either
position, the loader returns the null failure marker and its firmware
trace is exactly the header pool allocation and 4-byte header read: no
seek, no glyph-buffer allocation, and no read other than the header
read occur. -/
theorem c6_font_magic_reject (env : BootEnv) (Directory : Option Nat)
    (Path : String) (fh : Nat)
    (hopen : LoadFile env Directory Path = some fh)
    (hbad : env.fileBytes fh 0 % 256 ≠ PSF1_MAGIC0 ∨
      env.fileBytes fh 1 % 256 ≠ PSF1_MAGIC1) :
    (LoadPSF1Font env Directory Path).1 = none
    ∧ (LoadPSF1Font env Directory Path).2 =
        [FontOp.allocPool 4, FontOp.readFile 4]
    ∧ (∀ p, FontOp.setPos p ∉ (LoadPSF1Font env Directory Path).2)
    ∧ (∀ s, s ≠ 4 → FontOp.allocPool s ∉ (LoadPSF1Font env Directory Path).2)
    ∧ (∀ s, s ≠ 4 → FontOp.readFile s ∉ (LoadPSF1Font env Directory Path).2)
    := by
  have key : LoadPSF1Font env Directory Path =
      (none, [FontOp.allocPool 4, FontOp.readFile 4]) := by
    simp only [LoadPSF1Font, hopen, sizeof_PSF1_HEADER]
    rw [if_pos hbad]
  rw [key]
  refine ⟨rfl, rfl, ?_, ?_, ?_⟩ <;> intro s <;> simp

/-- Environment whose font file opens but has magic bytes {0x35, 0x04}. -/
def envFontBadMagic : BootEnv where
  volumeRoot := 1
  openf := fun _ p _ _ => if p = "main.psf" then some 5 else none
  fileBytes := fun _ o => [0x35, 0x04, 0, 16].getD o 0
  phdrsAddr := 0
  allocOk := fun _ _ => true
  gop := none
  mem0 := fun _ => 0

/-- C6 witness: the bad-magic font file is rejected with the null
marker after exactly the header allocation and header read. -/
theorem c6_witness :
    (LoadPSF1Font envFontBadMagic none "main.psf").1 = none
    ∧ (LoadPSF1Font envFontBadMagic none "main.psf").2 =
        [FontOp.allocPool 4, FontOp.readFile 4] :=
  ⟨(c6_font_magic_reject envFontBadMagic none "main.psf" 5 (by decide)
      (by decide)).1,
   (c6_font_magic_reject envFontBadMagic none "main.psf" 5 (by decide)
      (by decide)).2.1⟩

/-- Environment in which the font file cannot be opened at all. -/
def envFontMissing : BootEnv where
  volumeRoot := 1
  openf := fun _ _ _ _ => none
  fileBytes := fun _ _ => 0
  phdrsAddr := 0
  allocOk := fun _ _ => true
  gop := none
  mem0 := fun _ => 0

/-- C10. The font loader returns the same null failure marker when the
file cannot be opened (envFontMissing) and when the file opens but its
magic bytes are wrong (envFontBadMagic): the two returned values are
identical, so a caller cannot distinguish the two failures from the
returned value. -/
theorem c10_same_failure_marker :
    (LoadPSF1Font envFontMissing none "main.psf").1 = none
    ∧ (LoadPSF1Font envFontBadMagic none "main.psf").1 = none
    ∧ (LoadPSF1Font envFontMissing none "main.psf").1 =
        (LoadPSF1Font envFontBadMagic none "main.psf").1
    ∧ LoadFile envFontMissing none "main.psf" = none
    ∧ LoadFile envFontBadMagic none "main.psf" = some 5 := by
  exact ⟨rfl, rfl, rfl, rfl, rfl⟩

/-! ## Program headers and the segment mapper (main.c lines 222-252) -/

/-- Elf64_Phdr: type, flags, file offset, virtual/physical address,
file size, memory size, alignment (56 bytes). -/
structure Elf64_Phdr where
  p_type : Nat
  p_flags : Nat
  p_offset : Nat
  p_vaddr : Nat
  p_paddr : Nat
  p_filesz : Nat
  p_memsz : Nat
  p_align : Nat
deriving DecidableEq

/-- Decode the program-header entry that starts `off` bytes into the
program-header table buffer (standard Elf64_Phdr layout). -/
def readPhdr (raw : Nat → Nat) (off : Nat) : Elf64_Phdr where
  p_type := readLE raw off 4
  p_flags := readLE raw (off + 4) 4
  p_offset := readLE raw (off + 8) 8
  p_vaddr := readLE raw (off + 16) 8
  p_paddr := readLE raw (off + 24) 8
  p_filesz := readLE raw (off + 32) 8
  p_memsz := readLE raw (off + 40) 8
  p_align := readLE raw (off + 48) 8

/-- The page count the loader requests:
`int pages = (phdr->p_memsz + 0x1000 - 1) / 0x1000;`.
`p_memsz + 0x1000 - 1` is 64-bit unsigned arithmetic (wraps at 2^64);
the unsigned quotient is converted to the 32-bit signed `int pages`
(two's-complement wrap), which is then passed to AllocatePages, whose
page-count parameter is a 64-bit UINTN (sign extension). -/
def pagesFor (memsz : Nat) : Nat :=
  let q := ((memsz + 0x1000 - 1) % 2 ^ 64) / 0x1000
  let r := q % 2 ^ 32
  if r < 2 ^ 31 then r else 2 ^ 64 - 2 ^ 32 + r

/-- Firmware calls the mapping loop performs per loadable segment:
the fixed-address page allocation (with the status the firmware
returned, which the code never reads), and the file read of `p_filesz`
bytes to the segment's physical address from file offset `p_offset`. -/
inductive SegAction where
  | allocPages (paddr pages : Nat) (ok : Bool)
  | readSeg (paddr filesz offset : Nat)
deriving DecidableEq

/-- Effect on memory of `Kernel->Read(Kernel, &size, (void*)segment)`
with size = p_filesz, after SetPosition(p_offset): exactly the
`p_filesz` bytes at `p_paddr` become the file bytes starting at
`p_offset`; every other byte is untouched. -/
def mapSegStep (kfile mem : Nat → Nat) (phdr : Elf64_Phdr) : Nat → Nat :=
  fun a =>
    if phdr.p_paddr ≤ a ∧ a < phdr.p_paddr + phdr.p_filesz then
      kfile (phdr.p_offset + (a - phdr.p_paddr))
    else mem a

/-- The mapping loop. The C loop advances a byte cursor by
`e_phentsize` while it is below `e_phnum * e_phentsize`, so it executes
exactly `e_phnum` iterations when `e_phentsize > 0` and zero when
`e_phentsize = 0` (the bound is then 0); the structural fuel
`e_phnum`, checked together with the source's loop condition,
reproduces the loop exactly. -/
def mapSegsAux (hdr : Elf64_Ehdr) (raw kfile : Nat → Nat)
    (allocOk : Nat → Nat → Bool) :
    Nat → Nat → (Nat → Nat) → ((Nat → Nat) × List SegAction)
  | 0, _, mem => (mem, [])
  | fuel + 1, off, mem =>
    if off < hdr.e_phnum * hdr.e_phentsize then
      let phdr := readPhdr raw off
      if phdr.p_type = PT_LOAD then
        let pages := pagesFor phdr.p_memsz
        let ok := allocOk phdr.p_paddr pages
        let mem1 := mapSegStep kfile mem phdr
        let rest := mapSegsAux hdr raw kfile allocOk fuel
          (off + hdr.e_phentsize) mem1
        (rest.1, SegAction.allocPages phdr.p_paddr pages ok ::
          SegAction.readSeg phdr.p_paddr phdr.p_filesz phdr.p_offset ::
          rest.2)
      else
        mapSegsAux hdr raw kfile allocOk fuel (off + hdr.e_phentsize) mem
    else (mem, [])

/-- The whole memory-allocation loop (main.c lines 233-252): final
memory contents and the ordered firmware calls. -/
def mapSegments (hdr : Elf64_Ehdr) (raw kfile : Nat → Nat)
    (allocOk : Nat → Nat → Bool) (mem : Nat → Nat) :
    (Nat → Nat) × List SegAction :=
  mapSegsAux hdr raw kfile allocOk hdr.e_phnum 0 mem

/-- The fixed-address allocation requests (address, page count) a trace
contains, in order. -/
def allocsOf : List SegAction → List (Nat × Nat)
  | [] => []
  | SegAction.allocPages p n _ :: rest => (p, n) :: allocsOf rest
  | SegAction.readSeg _ _ _ :: rest => allocsOf rest

lemma mapSegsAux_allocs (hdr : Elf64_Ehdr) (raw kfile : Nat → Nat)
    (allocOk : Nat → Nat → Bool) (hs : 0 < hdr.e_phentsize) :
    ∀ fuel k mem, hdr.e_phnum ≤ k + fuel →
      allocsOf (mapSegsAux hdr raw kfile allocOk fuel
          (k * hdr.e_phentsize) mem).2
        = (List.range' k (hdr.e_phnum - k)).filterMap (fun j =>
            let ph := readPhdr raw (j * hdr.e_phentsize)
            if ph.p_type = PT_LOAD then
              some (ph.p_paddr, pagesFor ph.p_memsz)
            else none) := by
  intro fuel
  induction fuel with
  | zero =>
    intro k mem hk
    have h0 : hdr.e_phnum - k = 0 := by omega
    simp [mapSegsAux, h0, allocsOf]
  | succ n ih =>
    intro k mem hk
    by_cases hlt : k < hdr.e_phnum
    · have hguard : k * hdr.e_phentsize < hdr.e_phnum * hdr.e_phentsize :=
        Nat.mul_lt_mul_of_lt_of_le hlt (le_refl _) hs
      have hrange : hdr.e_phnum - k = (hdr.e_phnum - (k + 1)) + 1 := by omega
      have hstep : k * hdr.e_phentsize + hdr.e_phentsize
          = (k + 1) * hdr.e_phentsize := by ring
      rw [hrange, List.range'_succ, List.filterMap_cons]
      simp only [mapSegsAux]
      rw [if_pos hguard]
      by_cases hty : (readPhdr raw (k * hdr.e_phentsize)).p_type = PT_LOAD
      · rw [if_pos hty]
        simp only [allocsOf]
        rw [hstep, ih (k + 1) _ (by omega)]
        simp [hty]
      · rw [if_neg hty]
        rw [hstep, ih (k + 1) _ (by omega)]
        simp [hty]
    · have hguard : ¬ k * hdr.e_phentsize < hdr.e_phnum * hdr.e_phentsize :=
        not_lt.mpr (Nat.mul_le_mul_right _ (not_lt.mp hlt))
      have h0 : hdr.e_phnum - k = 0 := by omega
      simp [mapSegsAux, hguard, h0, allocsOf]

/-- Declarative form of the loop's memory effect: apply `mapSegStep`
for the entries of the given index list that are PT_LOAD, left to
right, at stride `s`. -/
def mapMemFold (raw kfile : Nat → Nat) (s : Nat) :
    List Nat → (Nat → Nat) → (Nat → Nat)
  | [], mem => mem
  | j :: rest, mem =>
    mapMemFold raw kfile s rest
      (if (readPhdr raw (j * s)).p_type = PT_LOAD then
        mapSegStep kfile mem (readPhdr raw (j * s))
      else mem)

lemma mapSegsAux_memory (hdr : Elf64_Ehdr) (raw kfile : Nat → Nat)
    (allocOk : Nat → Nat → Bool) (hs : 0 < hdr.e_phentsize) :
    ∀ fuel k mem, hdr.e_phnum ≤ k + fuel →
      (mapSegsAux hdr raw kfile allocOk fuel
          (k * hdr.e_phentsize) mem).1
        = mapMemFold raw kfile hdr.e_phentsize
            (List.range' k (hdr.e_phnum - k)) mem := by
  intro fuel
  induction fuel with
  | zero =>
    intro k mem hk
    have h0 : hdr.e_phnum - k = 0 := by omega
    simp [mapSegsAux, h0, mapMemFold]
  | succ n ih =>
    intro k mem hk
    by_cases hlt : k < hdr.e_phnum
    · have hguard : k * hdr.e_phentsize < hdr.e_phnum * hdr.e_phentsize :=
        Nat.mul_lt_mul_of_lt_of_le hlt (le_refl _) hs
      have hrange : hdr.e_phnum - k = (hdr.e_phnum - (k + 1)) + 1 := by omega
      have hstep : k * hdr.e_phentsize + hdr.e_phentsize
          = (k + 1) * hdr.e_phentsize := by ring
      rw [hrange, List.range'_succ]
      simp only [mapSegsAux]
      rw [if_pos hguard]
      have ih1 := fun m => ih (k + 1) m
        (by omega : hdr.e_phnum ≤ k + 1 + n)
      by_cases hty : (readPhdr raw (k * hdr.e_phentsize)).p_type = PT_LOAD
      · rw [if_pos hty]
        simp only [mapMemFold]
        rw [if_pos hty]
        simp only [hstep, ih1]
      · rw [if_neg hty]
        simp only [mapMemFold]
        rw [if_neg hty]
        simp only [hstep, ih1]
    · have hguard : ¬ k * hdr.e_phentsize < hdr.e_phnum * hdr.e_phentsize :=
        not_lt.mpr (Nat.mul_le_mul_right _ (not_lt.mp hlt))
      have h0 : hdr.e_phnum - k = 0 := by omega
      simp [mapSegsAux, hguard, h0, mapMemFold]

/-! ## Claim C5: per-entry behaviour of the mapping loop -/

/-- C5 (amended). With a positive header stride, the fixed-address
allocation requests issued by the loop are exactly: one request per
entry at stride `e_phentsize`, for each entry whose type is PT_LOAD, at
exactly that entry's `p_paddr`, for `pagesFor p_memsz` pages;
non-loadable entries contribute nothing. `pagesFor m` equals
`ceil(m / 4096)` whenever `m + 4095` does not wrap 64-bit arithmetic
and the page count fits a 32-bit signed int; outside that range the
requested count is the wrapped value. -/
theorem c5_segment_iteration (hdr : Elf64_Ehdr) (raw kfile : Nat → Nat)
    (allocOk : Nat → Nat → Bool) (mem : Nat → Nat)
    (hs : 0 < hdr.e_phentsize) :
    allocsOf (mapSegments hdr raw kfile allocOk mem).2
      = (List.range hdr.e_phnum).filterMap (fun j =>
          let ph := readPhdr raw (j * hdr.e_phentsize)
          if ph.p_type = PT_LOAD then
            some (ph.p_paddr, pagesFor ph.p_memsz)
          else none)
    ∧ (∀ m, m + 4095 < 2 ^ 64 → (m + 4095) / 4096 < 2 ^ 31 →
        pagesFor m = (m + 4096 - 1) / 4096) := by
  constructor
  · have h := mapSegsAux_allocs hdr raw kfile allocOk hs hdr.e_phnum 0 mem
      (by omega)
    rw [Nat.zero_mul] at h
    rw [mapSegments, List.range_eq_range']
    simpa using h
  · intro m h1 h2
    simp only [pagesFor]
    split_ifs with h3 <;> omega

/-- Header for the C5 witness: one program-header entry, stride 56. -/
def hdrW5 : Elf64_Ehdr where
  ident := fun i => [0x7f, 0x45, 0x4c, 0x46, 2, 1].getD i 0
  e_type := 2
  e_machine := 62
  e_version := 1
  e_entry := 0
  e_phoff := 64
  e_phentsize := 56
  e_phnum := 1

/-- Table bytes for the C5 witness: one PT_LOAD entry with
p_paddr = 0x100000 and p_memsz = 0x2000 (two pages). -/
def rawW5 : Nat → Nat := fun n =>
  if n = 0 then 1 else if n = 26 then 0x10 else if n = 41 then 0x20 else 0

/-- C5 witness: the single PT_LOAD entry with memory size 0x2000 yields
exactly one fixed-address request of 2 pages at 0x100000. -/
theorem c5_witness :
    allocsOf (mapSegments hdrW5 rawW5 (fun _ => 0) (fun _ _ => true)
        (fun _ => 0)).2 = [(0x100000, 2)] :=
  ((c5_segment_iteration hdrW5 rawW5 (fun _ => 0) (fun _ _ => true)
      (fun _ => 0) (by decide)).1).trans (by decide)

/-- Header for the C5 counterexample: one entry, stride 56. -/
def hdrC5 : Elf64_Ehdr := hdrW5

/-- Table bytes for the C5 counterexample: one PT_LOAD entry whose
p_memsz bytes (offsets 40..47) are all 0xff, i.e. p_memsz = 2^64 - 1;
every other field is 0. -/
def rawC5 : Nat → Nat := fun n =>
  if n = 0 then 1 else if 40 ≤ n ∧ n ≤ 47 then 0xff else 0

/-- C5 counterexample: for the loadable entry with memory size
2^64 - 1, `ceil(memory_size / 4096)` is 2^52, but the loop requests 0
pages, because `p_memsz + 0x1000 - 1` wraps around 64-bit unsigned
arithmetic to 4094 before the division. -/
theorem c5_counterexample :
    (readPhdr rawC5 0).p_type = PT_LOAD
    ∧ (readPhdr rawC5 0).p_memsz = 2 ^ 64 - 1
    ∧ allocsOf (mapSegments hdrC5 rawC5 (fun _ => 0) (fun _ _ => true)
        (fun _ => 0)).2 = [(0, 0)]
    ∧ ((2 ^ 64 - 1 : Nat) + 4096 - 1) / 4096 = 2 ^ 52
    ∧ (0 : Nat) ≠ 2 ^ 52 := by decide

/-! ## Claim C1: bytes copied and the memory-size tail -/

/-- C1 (amended). For a table holding a single loadable segment: after
the mapper runs, the `p_filesz` bytes at `p_paddr` are exactly the file
bytes starting at `p_offset`, and every byte outside
[p_paddr, p_paddr + p_filesz) — in particular the whole
`p_memsz − p_filesz` tail of the region — still reads its previous
memory contents: the mapper performs no zero-fill. -/
theorem c1_segment_copy (hdr : Elf64_Ehdr) (raw kfile mem : Nat → Nat)
    (allocOk : Nat → Nat → Bool)
    (hn : hdr.e_phnum = 1) (hs : hdr.e_phentsize = 56)
    (hload : (readPhdr raw 0).p_type = PT_LOAD) :
    (∀ i, i < (readPhdr raw 0).p_filesz →
      (mapSegments hdr raw kfile allocOk mem).1 ((readPhdr raw 0).p_paddr + i)
        = kfile ((readPhdr raw 0).p_offset + i))
    ∧ (∀ a, (readPhdr raw 0).p_paddr + (readPhdr raw 0).p_filesz ≤ a →
        (mapSegments hdr raw kfile allocOk mem).1 a = mem a)
    ∧ (∀ a, a < (readPhdr raw 0).p_paddr →
        (mapSegments hdr raw kfile allocOk mem).1 a = mem a) := by
  have hrun : (mapSegments hdr raw kfile allocOk mem).1
      = mapSegStep kfile mem (readPhdr raw 0) := by
    have h := mapSegsAux_memory hdr raw kfile allocOk
      (by rw [hs]; norm_num) hdr.e_phnum 0 mem (by omega)
    rw [Nat.zero_mul] at h
    rw [mapSegments, h, hn, hs]
    norm_num [List.range'_one, mapMemFold, hload]
  rw [hrun]
  clear hrun hload
  generalize readPhdr raw 0 = P
  refine ⟨?_, ?_, ?_⟩
  · intro i hi
    simp only [mapSegStep]
    split_ifs with hc
    · congr 1
      omega
    · omega
  · intro a ha
    simp only [mapSegStep]
    split_ifs with hc
    · omega
    · rfl
  · intro a ha
    simp only [mapSegStep]
    split_ifs with hc
    · omega
    · rfl

/-- Header for the C1 theorems: one entry, stride 56. -/
def hdrC1 : Elf64_Ehdr := hdrW5

/-- Table bytes for the C1 theorems: one PT_LOAD entry with
p_offset = 0x200, p_paddr = 0x1000, p_filesz = 2, p_memsz = 4096. -/
def rawC1 : Nat → Nat := fun n =>
  if n = 0 then 1 else if n = 9 then 2 else if n = 25 then 0x10
  else if n = 32 then 2 else if n = 41 then 0x10 else 0

/-- C1 witness: with file bytes `n % 256` and prior memory 0xAA
everywhere, byte 1 of the mapped segment equals file byte 0x201, and an
address past the file-backed portion still reads 0xAA. -/
theorem c1_witness :
    (mapSegments hdrC1 rawC1 (fun n => n % 256) (fun _ _ => true)
        (fun _ => 0xAA)).1 (0x1000 + 1) = (fun n => n % 256) (0x200 + 1)
    ∧ (mapSegments hdrC1 rawC1 (fun n => n % 256) (fun _ _ => true)
        (fun _ => 0xAA)).1 (0x1000 + 4000) = 0xAA :=
  ⟨(c1_segment_copy hdrC1 rawC1 (fun n => n % 256) (fun _ => 0xAA)
      (fun _ _ => true) rfl rfl (by decide)).1 1 (by decide),
   (c1_segment_copy hdrC1 rawC1 (fun n => n % 256) (fun _ => 0xAA)
      (fun _ _ => true) rfl rfl (by decide)).2.1 (0x1000 + 4000) (by decide)⟩

/-- C1 counterexample: the single loadable segment has file size 2 and
memory size 4096, so the claim requires byte p_paddr + 2 — inside the
memory-size tail — to read zero after mapping; with prior memory
contents 0xAA it reads 0xAA: the mapper never zero-fills. -/
theorem c1_counterexample :
    (readPhdr rawC1 0).p_type = PT_LOAD
    ∧ (readPhdr rawC1 0).p_filesz = 2
    ∧ (readPhdr rawC1 0).p_memsz = 4096
    ∧ (mapSegments hdrC1 rawC1 (fun n => n % 256) (fun _ _ => true)
        (fun _ => 0xAA)).1 (0x1000 + 2) = 0xAA
    ∧ (0xAA : Nat) ≠ 0 := by decide

/-! ## Claim C4: failed fixed-address allocation is ignored -/

/-- Header for the C4 run: two entries, stride 56. -/
def hdrC4 : Elf64_Ehdr := { hdrW5 with e_phnum := 2 }

/-- Table bytes for the C4 run: two PT_LOAD entries,
entry 0: p_offset = 0x200, p_paddr = 0x1000, p_filesz = 4, p_memsz = 4;
entry 1: p_offset = 0x240, p_paddr = 0x3000, p_filesz = 4, p_memsz = 4. -/
def rawC4 : Nat → Nat := fun n =>
  if n = 0 then 1 else if n = 9 then 2 else if n = 25 then 0x10
  else if n = 32 then 4 else if n = 40 then 4
  else if n = 56 then 1 else if n = 64 then 0x40 else if n = 65 then 2
  else if n = 81 then 0x30 else if n = 88 then 4 else if n = 96 then 4
  else 0

/-- C4: in a run in which the firmware refuses every fixed-address
allocation (status recorded as `false`), the loader nevertheless issues
the file read into the first segment's region — the bytes at 0x1000
become file bytes — and then continues with the second loadable
segment, allocating and reading it as well. The C code never inspects
the AllocatePages status (main.c line 244), so the run is not aborted. -/
theorem c4_alloc_failure_ignored :
    (mapSegments hdrC4 rawC4 (fun _ => 9) (fun _ _ => false)
        (fun _ => 0)).2
      = [SegAction.allocPages 0x1000 1 false,
         SegAction.readSeg 0x1000 4 0x200,
         SegAction.allocPages 0x3000 1 false,
         SegAction.readSeg 0x3000 4 0x240]
    ∧ (mapSegments hdrC4 rawC4 (fun _ => 9) (fun _ _ => false)
        (fun _ => 0)).1 0x1000 = 9
    ∧ (mapSegments hdrC4 rawC4 (fun _ => 9) (fun _ _ => false)
        (fun _ => 0)).1 0x3000 = 9 := by decide

/-! ## efi_main (main.c lines 176-286) -/

/-- KernelData (main.c lines 161-167): the handoff record. The C fields
framebuffer and font are pointers; the values they reach are carried
directly. kernelStart/kernelEnd are the `void*` values stored. -/
structure KernelData where
  framebuffer : Framebuffer
  font : PSF1_FONT
  kernelSize : Nat
  kernelStart : Nat
  kernelEnd : Nat

/-- Outcome of efi_main: either a status returned to the firmware, or a
non-returning control transfer to the entry address with the handoff
record, with physical memory in the given state. -/
inductive BootOutcome where
  | returned (status : Nat)
  | transferred (entry : Nat) (kernelData : KernelData) (mem : Nat → Nat)

/-- InitializeGOP (main.c lines 27-47): locate the graphics output
protocol; on failure return NULL, on success capture base, size, width,
height and pixels-per-scanline. The environment carries the captured
descriptor. -/
def InitializeGOP (env : BootEnv) : Option Framebuffer := env.gop

/-- efi_main: resolve kernel\main.elf (a null inner directory handle
falls back to the volume root), read and verify the ELF header
(EFI_LOAD_ERROR on mismatch), read the program-header table of
e_phnum * e_phentsize bytes from e_phoff, run the mapping loop, load
files\main.psf as a PSF1 font (EFI_LOAD_ERROR when it is null),
initialize GOP (status 1 when it is null), build the KernelData record
with kernelStart = the pool address of the program-header table and
kernelEnd = phdrs + kernelSize in Elf64_Phdr* pointer arithmetic, and
transfer control to e_entry. -/
def efi_main (env : BootEnv) : BootOutcome :=
  match LoadFile env (LoadFile env none "kernel") "main.elf" with
  | none => BootOutcome.returned EFI_LOAD_ERROR
  | some kernel =>
    let header := readEhdr (env.fileBytes kernel)
    if verifyHeader header then
      let kernelSize := header.e_phnum * header.e_phentsize
      let phdrsRaw := fun i => env.fileBytes kernel (header.e_phoff + i)
      let loaded := mapSegments header phdrsRaw (env.fileBytes kernel)
        env.allocOk env.mem0
      match (LoadPSF1Font env (LoadFile env none "files") "main.psf").1 with
      | none => BootOutcome.returned EFI_LOAD_ERROR
      | some zapFont =>
        match InitializeGOP env with
        | none => BootOutcome.returned 1
        | some framebuffer =>
          BootOutcome.transferred header.e_entry
            { framebuffer := framebuffer
              font := zapFont
              kernelSize := kernelSize
              kernelStart := env.phdrsAddr
              kernelEnd := (env.phdrsAddr + kernelSize * sizeof_Elf64_Phdr)
                % 2 ^ 64 }
            loaded.1
    else BootOutcome.returned EFI_LOAD_ERROR

/-! ## Claim C7: failure statuses and control transfer -/

/-- C7 (amended). Kernel-file, header and font failures return
EFI_LOAD_ERROR; a missing framebuffer device returns status 1 (nonzero,
distinguishable from EFI_SUCCESS, but not the EFI_LOAD_ERROR code); in
every failure case no control transfer happens, and control is
transferred only when all stages succeed. -/
theorem c7_failure_paths (env : BootEnv) :
    (LoadFile env (LoadFile env none "kernel") "main.elf" = none →
      efi_main env = BootOutcome.returned EFI_LOAD_ERROR)
    ∧ (∀ kernel,
        LoadFile env (LoadFile env none "kernel") "main.elf" = some kernel →
        verifyHeader (readEhdr (env.fileBytes kernel)) = false →
        efi_main env = BootOutcome.returned EFI_LOAD_ERROR)
    ∧ (∀ kernel,
        LoadFile env (LoadFile env none "kernel") "main.elf" = some kernel →
        verifyHeader (readEhdr (env.fileBytes kernel)) = true →
        (LoadPSF1Font env (LoadFile env none "files") "main.psf").1 = none →
        efi_main env = BootOutcome.returned EFI_LOAD_ERROR)
    ∧ (∀ kernel zapFont,
        LoadFile env (LoadFile env none "kernel") "main.elf" = some kernel →
        verifyHeader (readEhdr (env.fileBytes kernel)) = true →
        (LoadPSF1Font env (LoadFile env none "files") "main.psf").1
          = some zapFont →
        InitializeGOP env = none →
        efi_main env = BootOutcome.returned 1)
    ∧ (∀ e kd m, efi_main env = BootOutcome.transferred e kd m →
        (∃ kernel,
          LoadFile env (LoadFile env none "kernel") "main.elf" = some kernel
          ∧ verifyHeader (readEhdr (env.fileBytes kernel)) = true)
        ∧ (∃ f, (LoadPSF1Font env (LoadFile env none "files") "main.psf").1
            = some f)
        ∧ (∃ fb, InitializeGOP env = some fb))
    ∧ EFI_LOAD_ERROR ≠ EFI_SUCCESS ∧ (1 : Nat) ≠ EFI_SUCCESS := by
  refine ⟨?_, ?_, ?_, ?_, ?_, by decide, by decide⟩
  · intro hK
    simp only [efi_main, hK]
  · intro kernel hK hV
    simp [efi_main, hK, hV]
  · intro kernel hK hV hF
    simp [efi_main, hK, hV, hF]
  · intro kernel zapFont hK hV hF hG
    simp [efi_main, hK, hV, hF, hG]
  · intro e kd m h
    cases hK : LoadFile env (LoadFile env none "kernel") "main.elf" with
    | none => simp [efi_main, hK] at h
    | some kernel =>
      cases hV : verifyHeader (readEhdr (env.fileBytes kernel)) with
      | false => simp [efi_main, hK, hV] at h
      | true =>
        cases hF : (LoadPSF1Font env (LoadFile env none "files")
            "main.psf").1 with
        | none => simp [efi_main, hK, hV, hF] at h
        | some f =>
          cases hG : InitializeGOP env with
          | none => simp [efi_main, hK, hV, hF, hG] at h
          | some fb => exact ⟨⟨kernel, rfl, hV⟩, ⟨f, rfl⟩, ⟨fb, rfl⟩⟩

/-- Environment in which no file opens at all. -/
def envNoKernel : BootEnv where
  volumeRoot := 1
  openf := fun _ _ _ _ => none
  fileBytes := fun _ _ => 0
  phdrsAddr := 0
  allocOk := fun _ _ => true
  gop := none
  mem0 := fun _ => 0

/-- C7 witness: with the kernel file missing, efi_main returns
EFI_LOAD_ERROR. -/
theorem c7_witness :
    efi_main envNoKernel = BootOutcome.returned EFI_LOAD_ERROR :=
  (c7_failure_paths envNoKernel).1 (by decide)

/-- A valid 64-byte ELF header (x86-64 executable) with e_phoff = 64,
e_phentsize = 56 and e_phnum = 0. -/
def elfNoPh : List Nat :=
  [0x7f, 0x45, 0x4c, 0x46, 2, 1, 1, 0, 0, 0, 0, 0, 0, 0, 0, 0,
   2, 0, 62, 0, 1, 0, 0, 0,
   0, 0, 0, 0, 0, 0, 0, 0,
   64, 0, 0, 0, 0, 0, 0, 0,
   0, 0, 0, 0, 0, 0, 0, 0,
   0, 0, 0, 0, 64, 0, 56, 0,
   0, 0, 64, 0, 0, 0, 0, 0]

/-- Environment in which every stage succeeds except GOP discovery:
valid kernel ELF (no loadable segments), valid font, but no
framebuffer device. -/
def envGopNone : BootEnv where
  volumeRoot := 1
  openf := fun d p _ _ =>
    if d = 1 ∧ p = "kernel" then some 10
    else if d = 10 ∧ p = "main.elf" then some 11
    else if d = 1 ∧ p = "files" then some 12
    else if d = 12 ∧ p = "main.psf" then some 13
    else none
  fileBytes := fun h o =>
    if h = 11 then elfNoPh.getD o 0
    else if h = 13 then [0x36, 0x04, 0, 16].getD o 0
    else 0
  phdrsAddr := 0x7000
  allocOk := fun _ _ => true
  gop := none
  mem0 := fun _ => 0

/-- C7 counterexample: when only the framebuffer device is missing, the
loader returns status 1, which is not the load-error status the claim
names (EFI_LOAD_ERROR = 2^63 + 1): its EFI error bit (2^63) is clear,
so to the firmware caller it is not an error code at all, merely a
nonzero (warning-range) status. -/
theorem c7_counterexample :
    efi_main envGopNone = BootOutcome.returned 1
    ∧ (1 : Nat) ≠ EFI_LOAD_ERROR
    ∧ ¬ 2 ^ 63 ≤ (1 : Nat) := by
  refine ⟨rfl, by decide, by decide⟩

/-! ## Claim C9: the handoff record's image extent -/

/-- C9. Whenever control is transferred, the handoff record's
kernelStart is the pool address of the program-header-table buffer,
kernelSize is e_phnum * e_phentsize, and kernelEnd is
kernelStart + kernelSize * sizeof(Elf64_Phdr) (pointer arithmetic in
Elf64_Phdr units, 56 bytes each, modulo 2^64); hence when kernelSize is
nonzero and that sum does not wrap, kernelEnd − kernelStart differs
from kernelSize. -/
theorem c9_handoff_extent (env : BootEnv) (e : Nat) (kd : KernelData)
    (m : Nat → Nat)
    (h : efi_main env = BootOutcome.transferred e kd m) :
    kd.kernelStart = env.phdrsAddr
    ∧ kd.kernelEnd
        = (env.phdrsAddr + kd.kernelSize * sizeof_Elf64_Phdr) % 2 ^ 64
    ∧ sizeof_Elf64_Phdr = 56
    ∧ (∀ kernel,
        LoadFile env (LoadFile env none "kernel") "main.elf" = some kernel →
        kd.kernelSize = (readEhdr (env.fileBytes kernel)).e_phnum *
          (readEhdr (env.fileBytes kernel)).e_phentsize)
    ∧ (kd.kernelSize ≠ 0 →
        env.phdrsAddr + kd.kernelSize * sizeof_Elf64_Phdr < 2 ^ 64 →
        kd.kernelEnd - kd.kernelStart ≠ kd.kernelSize) := by
  cases hK : LoadFile env (LoadFile env none "kernel") "main.elf" with
  | none => simp [efi_main, hK] at h
  | some kernel =>
    cases hV : verifyHeader (readEhdr (env.fileBytes kernel)) with
    | false => simp [efi_main, hK, hV] at h
    | true =>
      cases hF : (LoadPSF1Font env (LoadFile env none "files")
          "main.psf").1 with
      | none => simp [efi_main, hK, hV, hF] at h
      | some f =>
        cases hG : InitializeGOP env with
        | none => simp [efi_main, hK, hV, hF, hG] at h
        | some fb =>
          simp only [efi_main, hK, hV, hF, hG] at h
          rw [if_pos trivial] at h
          injection h with h1 h2 h3
          subst h2
          refine ⟨rfl, rfl, rfl, ?_, ?_⟩
          · intro k2 hK2
            injection hK2 with hk
            subst hk
            rfl
          · intro hne hlt
            have hne1 : (readEhdr (env.fileBytes kernel)).e_phnum *
                (readEhdr (env.fileBytes kernel)).e_phentsize ≠ 0 := hne
            have hlt1 : env.phdrsAddr +
                (readEhdr (env.fileBytes kernel)).e_phnum *
                (readEhdr (env.fileBytes kernel)).e_phentsize * 56
                < 2 ^ 64 := hlt
            show (env.phdrsAddr +
                (readEhdr (env.fileBytes kernel)).e_phnum *
                (readEhdr (env.fileBytes kernel)).e_phentsize * 56) % 2 ^ 64
                - env.phdrsAddr
              ≠ (readEhdr (env.fileBytes kernel)).e_phnum *
                (readEhdr (env.fileBytes kernel)).e_phentsize
            generalize (readEhdr (env.fileBytes kernel)).e_phnum *
              (readEhdr (env.fileBytes kernel)).e_phentsize = S
              at hne1 hlt1 ⊢
            rw [Nat.mod_eq_of_lt hlt1]
            omega

/-- elfNoPh with e_phnum = 1: one program-header entry at file offset
64; the file bytes there are all zero (PT_NULL), so the entry is
skipped by the mapping loop. -/
def elfOnePh : List Nat :=
  [0x7f, 0x45, 0x4c, 0x46, 2, 1, 1, 0, 0, 0, 0, 0, 0, 0, 0, 0,
   2, 0, 62, 0, 1, 0, 0, 0,
   0, 0, 0, 0, 0, 0, 0, 0,
   64, 0, 0, 0, 0, 0, 0, 0,
   0, 0, 0, 0, 0, 0, 0, 0,
   0, 0, 0, 0, 64, 0, 56, 0,
   1, 0, 64, 0, 0, 0, 0, 0]

/-- Fully successful environment: valid kernel ELF with one (skipped)
program-header entry, valid font, framebuffer present, program-header
table pool buffer at 0x7000. -/
def envT9 : BootEnv :=
  { envGopNone with
    gop := some { base := 0xFD000000, size := 0x300000, width := 1024,
                  height := 768, pps := 1024 }
    fileBytes := fun h o =>
      if h = 11 then elfOnePh.getD o 0
      else if h = 13 then [0x36, 0x04, 0, 16].getD o 0
      else 0 }

/-- The font value the loader builds for envT9's font file. -/
def fontT9 : PSF1_FONT where
  psf1_Header := { magic0 := 0x36, magic1 := 0x04, mode := 0, charsize := 16 }
  glyphBuffer := fun i => envT9.fileBytes 13 (4 + i)

/-- The handoff record efi_main builds for envT9: kernelSize =
1 * 56 = 56 bytes of program headers, kernelStart = the pool address
0x7000, kernelEnd = 0x7000 + 56 entries-worth of bytes further. -/
def kdT9 : KernelData where
  framebuffer := { base := 0xFD000000, size := 0x300000, width := 1024,
                   height := 768, pps := 1024 }
  font := fontT9
  kernelSize := 56
  kernelStart := 0x7000
  kernelEnd := (0x7000 + 56 * sizeof_Elf64_Phdr) % 2 ^ 64

set_option maxHeartbeats 1000000 in
/-- C9 witness: on the fully successful run, control is transferred
with exactly kdT9, whose end − start is 56 * 56 = 3136 ≠ 56 =
kernelSize. -/
theorem c9_witness :
    efi_main envT9 = BootOutcome.transferred 0 kdT9 envT9.mem0
    ∧ kdT9.kernelSize = 56
    ∧ kdT9.kernelEnd - kdT9.kernelStart ≠ kdT9.kernelSize :=
  have h : efi_main envT9 = BootOutcome.transferred 0 kdT9 envT9.mem0 := rfl
  ⟨h, rfl, (c9_handoff_extent envT9 0 kdT9 envT9.mem0 h).2.2.2.2
    (by decide) (by decide)⟩
